import Mathlib

/-!
Verification of the rocket_app HTTP handler layer
(`src/rocket_app/src/assignments.rs`, `src/rocket_app/src/statuses.rs`)
against its specification.

The handlers are embedded directly from the Rust source.  The generic
CRUD layer (`tasks_db_lib::crud`, `tasks_db_lib::models`) is not part of
the sources; its operations are modelled from the spec (§4.2), and the
relational store is modelled as an association table from primary key to
row.  Failure of the connection pool is modelled by a boolean `poolOk`
(`pool.get()` succeeding) and a store-level operation failure by a
boolean `fault`.
-/

/-- Row of the `user_tasks` table (`tasks_db_lib::models::UserTask`),
composite primary key `(user_id, task_id)`. -/
structure UserTask where
  user_id : Int
  task_id : Int
  task_status_id : Int
deriving DecidableEq, Repr

/-- Creation payload for `user_tasks` (`tasks_db_lib::models::NewUserTask`). -/
structure NewUserTask where
  user_id : Int
  task_id : Int
  task_status_id : Int
deriving DecidableEq, Repr

/-- Request body of the assignment handlers (`UserTaskInput` in
`assignments.rs`). -/
structure UserTaskInput where
  user_id : Int
  task_id : Int
  task_status_id : Int
deriving DecidableEq, Repr

/-- Row of the `task_statuses` table (`tasks_db_lib::models::TaskStatus`),
primary key `id` (store-assigned). -/
structure TaskStatus where
  id : Int
  status_name : String
deriving DecidableEq, Repr

/-- Creation payload for `task_statuses`
(`tasks_db_lib::models::NewTaskStatus`). -/
structure NewTaskStatus where
  status_name : String
deriving DecidableEq, Repr

/-- Request body of the status handlers (`TaskStatusInput` in
`statuses.rs`). -/
structure TaskStatusInput where
  status_name : String
deriving DecidableEq, Repr

/-- Errors of the store, per the spec taxonomy (§7): store-level failure,
missing row on update, and primary-key constraint violation on insert. -/
inductive DbError where
  | storeError
  | rowMissing
  | constraintViolation
deriving DecidableEq, Repr

/-- A relational table, modelled as an association list from primary key
to row, in store-native order. -/
abbrev Table (κ ε : Type) := List (κ × ε)

/-- Select the (first) row with primary key `k`. -/
def Table.lookupKey [DecidableEq κ] : Table κ ε → κ → Option ε
  | [], _ => none
  | (k0, e0) :: s, k => if k0 = k then some e0 else Table.lookupKey s k

/-- Overwrite every row keyed `k` with the row `e`. -/
def Table.setKey [DecidableEq κ] : Table κ ε → κ → ε → Table κ ε
  | [], _, _ => []
  | (k0, e0) :: s, k, e =>
      if k0 = k then (k, e) :: Table.setKey s k e
      else (k0, e0) :: Table.setKey s k e

/-- Remove every row keyed `k`. -/
def Table.eraseKey [DecidableEq κ] : Table κ ε → κ → Table κ ε
  | [], _ => []
  | (k0, e0) :: s, k =>
      if k0 = k then Table.eraseKey s k
      else (k0, e0) :: Table.eraseKey s k

/-- The `user_tasks` table: composite key `(user_id, task_id)`. -/
abbrev AssignStore := Table (Int × Int) UserTask

/-- The `task_statuses` table together with its autoincrement counter for
the store-assigned `id`. -/
structure StatusStore where
  rows : Table Int TaskStatus
  nextId : Int
deriving DecidableEq, Repr

/-- Modelled from the spec: `UserTask::read_all` of the missing
`tasks_db_lib::crud` layer.  §4.2: returns every row in store-native
order, or a store-level error. -/
def UserTask.read_all (fault : Bool) (s : AssignStore) :
    Except DbError (List UserTask) :=
  if fault then .error .storeError else .ok (s.map (fun p => p.2))

/-- Modelled from the spec: `UserTask::read` of the missing
`tasks_db_lib::crud` layer.  §4.2: the single row matching the key, or
absence; errors only at store level. -/
def UserTask.read (fault : Bool) (s : AssignStore) (k : Int × Int) :
    Except DbError (Option UserTask) :=
  if fault then .error .storeError else .ok (Table.lookupKey s k)

/-- Modelled from the spec: `UserTask::create` of the missing
`tasks_db_lib::crud` layer.  §4.2: inserts a new row and returns the
stored entity; §3: at most one assignment per `(user_id, task_id)` pair,
so inserting a present key is a constraint violation. -/
def UserTask.create (fault : Bool) (s : AssignStore) (n : NewUserTask) :
    Except DbError (UserTask × AssignStore) :=
  if fault then .error .storeError
  else if (Table.lookupKey s (n.user_id, n.task_id)).isSome then
    .error .constraintViolation
  else
    let e : UserTask := ⟨n.user_id, n.task_id, n.task_status_id⟩
    .ok (e, ((n.user_id, n.task_id), e) :: s)

/-- Modelled from the spec: `UserTask::update` of the missing
`tasks_db_lib::crud` layer.  §4.2: replaces the fields of the row
identified by the key with the payload's values — for assignments the
payload's `user_id`/`task_id` are written verbatim — and fails if the
key does not exist. -/
def UserTask.update (fault : Bool) (s : AssignStore) (k : Int × Int)
    (n : NewUserTask) : Except DbError (UserTask × AssignStore) :=
  if fault then .error .storeError
  else if (Table.lookupKey s k).isSome then
    let e : UserTask := ⟨n.user_id, n.task_id, n.task_status_id⟩
    .ok (e, Table.setKey s k e)
  else .error .rowMissing

/-- Modelled from the spec: `UserTask::delete` of the missing
`tasks_db_lib::crud` layer.  §4.2: removes the row identified by the
key, returns the count of rows removed (0 or 1), and fails only on
store-level errors. -/
def UserTask.delete (fault : Bool) (s : AssignStore) (k : Int × Int) :
    Except DbError (Nat × AssignStore) :=
  if fault then .error .storeError
  else .ok ((if (Table.lookupKey s k).isSome then 1 else 0), Table.eraseKey s k)

/-- Modelled from the spec: `TaskStatus::read_all` of the missing
`tasks_db_lib::crud` layer (§4.2). -/
def TaskStatus.read_all (fault : Bool) (st : StatusStore) :
    Except DbError (List TaskStatus) :=
  if fault then .error .storeError else .ok (st.rows.map (fun p => p.2))

/-- Modelled from the spec: `TaskStatus::read` of the missing
`tasks_db_lib::crud` layer (§4.2). -/
def TaskStatus.read (fault : Bool) (st : StatusStore) (k : Int) :
    Except DbError (Option TaskStatus) :=
  if fault then .error .storeError else .ok (Table.lookupKey st.rows k)

/-- Modelled from the spec: `TaskStatus::create` of the missing
`tasks_db_lib::crud` layer.  §4.2 and §3: inserts a row whose `id` is
assigned by the store (autoincrement) and returns the stored entity. -/
def TaskStatus.create (fault : Bool) (st : StatusStore) (n : NewTaskStatus) :
    Except DbError (TaskStatus × StatusStore) :=
  if fault then .error .storeError
  else
    let e : TaskStatus := ⟨st.nextId, n.status_name⟩
    .ok (e, ⟨(st.nextId, e) :: st.rows, st.nextId + 1⟩)

/-- Modelled from the spec: `TaskStatus::update` of the missing
`tasks_db_lib::crud` layer.  §4.2: replaces the non-key field
(`status_name`) of the row identified by the key; fails if the key does
not exist. -/
def TaskStatus.update (fault : Bool) (st : StatusStore) (k : Int)
    (n : NewTaskStatus) : Except DbError (TaskStatus × StatusStore) :=
  if fault then .error .storeError
  else if (Table.lookupKey st.rows k).isSome then
    let e : TaskStatus := ⟨k, n.status_name⟩
    .ok (e, ⟨Table.setKey st.rows k e, st.nextId⟩)
  else .error .rowMissing

/-- Modelled from the spec: `TaskStatus::delete` of the missing
`tasks_db_lib::crud` layer (§4.2). -/
def TaskStatus.delete (fault : Bool) (st : StatusStore) (k : Int) :
    Except DbError (Nat × StatusStore) :=
  if fault then .error .storeError
  else .ok ((if (Table.lookupKey st.rows k).isSome then 1 else 0),
    ⟨Table.eraseKey st.rows k, st.nextId⟩)

/-- Outcome of a handler whose Rust return type is `Json<Vec<_>>`: it
either produces a JSON body with a success status, or the handler
panics (Rust `.expect`). -/
inductive ListResponse (α : Type) where
  | ok : α → ListResponse α
  | panicked : ListResponse α
deriving DecidableEq, Repr

/-- `get_user_tasks` (`assignments.rs`, `GET /assignments`):
`pool.get().expect("db connection")` panics when the pool fails;
otherwise `read_all(..).unwrap_or_default()` is serialised. -/
def get_user_tasks (poolOk fault : Bool) (s : AssignStore) :
    ListResponse (List UserTask) :=
  if poolOk then .ok ((UserTask.read_all fault s).toOption.getD [])
  else .panicked

/-- `get_user_task` (`assignments.rs`, `GET /assignments/<user_id>/<task_id>`):
`pool.get().ok()?`, then `read(..).ok().flatten().map(Json)`. -/
def get_user_task (user_id task_id : Int) (poolOk fault : Bool)
    (s : AssignStore) : Option UserTask :=
  if poolOk then (UserTask.read fault s (user_id, task_id)).toOption.join
  else none

/-- `update_user_task` (`assignments.rs`, `PUT /assignments/<user_id>/<task_id>`):
`pool.get().ok()?`, body copied into a `NewUserTask`, then
`update(.., (user_id, task_id), ..).ok().map(Json)`.  The resulting
store is returned alongside the response. -/
def update_user_task (user_id task_id : Int) (poolOk fault : Bool)
    (s : AssignStore) (user_task : UserTaskInput) :
    Option UserTask × AssignStore :=
  if poolOk then
    let updated_user_task : NewUserTask :=
      ⟨user_task.user_id, user_task.task_id, user_task.task_status_id⟩
    match UserTask.update fault s (user_id, task_id) updated_user_task with
    | .ok (e, s2) => (some e, s2)
    | .error _ => (none, s)
  else (none, s)

/-- `create_user_task` (`assignments.rs`, `POST /assignments`):
`pool.get().ok()?`, body copied into a `NewUserTask`, then
`create(..).ok().map(Json)`. -/
def create_user_task (poolOk fault : Bool) (s : AssignStore)
    (user_task : UserTaskInput) : Option UserTask × AssignStore :=
  if poolOk then
    let new_user_task : NewUserTask :=
      ⟨user_task.user_id, user_task.task_id, user_task.task_status_id⟩
    match UserTask.create fault s new_user_task with
    | .ok (e, s2) => (some e, s2)
    | .error _ => (none, s)
  else (none, s)

/-- `delete_user_task` (`assignments.rs`, `DELETE /assignments/<user_id>/<task_id>`):
`pool.get().ok()?`, then `delete(..).ok().map(Json)`. -/
def delete_user_task (user_id task_id : Int) (poolOk fault : Bool)
    (s : AssignStore) : Option Nat × AssignStore :=
  if poolOk then
    match UserTask.delete fault s (user_id, task_id) with
    | .ok (n, s2) => (some n, s2)
    | .error _ => (none, s)
  else (none, s)

/-- `get_task_statuses` (`statuses.rs`, `GET /tasks_statuses`):
`pool.get().expect("db connection")` panics when the pool fails;
otherwise `read_all(..).unwrap_or_default()` is serialised. -/
def get_task_statuses (poolOk fault : Bool) (st : StatusStore) :
    ListResponse (List TaskStatus) :=
  if poolOk then .ok ((TaskStatus.read_all fault st).toOption.getD [])
  else .panicked

/-- `get_task_status` (`statuses.rs`, `GET /tasks_statuses/<id>`):
`pool.get().ok()?`, then `read(..).ok().flatten().map(Json)`. -/
def get_task_status (id : Int) (poolOk fault : Bool) (st : StatusStore) :
    Option TaskStatus :=
  if poolOk then (TaskStatus.read fault st id).toOption.join
  else none

/-- `update_task_status` (`statuses.rs`, `PUT /tasks_statuses/<id>`):
`pool.get().ok()?`, body copied into a `NewTaskStatus`, then
`update(.., id, ..).ok().map(Json)`. -/
def update_task_status (id : Int) (poolOk fault : Bool) (st : StatusStore)
    (task_status : TaskStatusInput) : Option TaskStatus × StatusStore :=
  if poolOk then
    let updated_task_status : NewTaskStatus := ⟨task_status.status_name⟩
    match TaskStatus.update fault st id updated_task_status with
    | .ok (e, st2) => (some e, st2)
    | .error _ => (none, st)
  else (none, st)

/-- `create_task_status` (`statuses.rs`, `POST /tasks_statuses`):
`pool.get().ok()?`, body copied into a `NewTaskStatus`, then
`create(..).ok().map(Json)`. -/
def create_task_status (poolOk fault : Bool) (st : StatusStore)
    (task_status : TaskStatusInput) : Option TaskStatus × StatusStore :=
  if poolOk then
    let new_task_status : NewTaskStatus := ⟨task_status.status_name⟩
    match TaskStatus.create fault st new_task_status with
    | .ok (e, st2) => (some e, st2)
    | .error _ => (none, st)
  else (none, st)

/-- `delete_task_status` (`statuses.rs`, `DELETE /tasks_statuses/<id>`):
`pool.get().ok()?`, then `delete(..).ok().map(Json)`. -/
def delete_task_status (id : Int) (poolOk fault : Bool) (st : StatusStore) :
    Option Nat × StatusStore :=
  if poolOk then
    match TaskStatus.delete fault st id with
    | .ok (n, st2) => (some n, st2)
    | .error _ => (none, st)
  else (none, st)

/-! ## Helper lemmas about the table model -/

theorem lookupKey_setKey_self [DecidableEq κ] (s : Table κ ε) (k : κ) (e : ε) :
    Table.lookupKey (Table.setKey s k e) k = (Table.lookupKey s k).map (fun _ => e) := by
  induction s with
  | nil => simp [Table.lookupKey, Table.setKey]
  | cons p tl ih =>
    obtain ⟨k0, e0⟩ := p
    by_cases h : k0 = k
    · simp [Table.lookupKey, Table.setKey, h]
    · simp [Table.lookupKey, Table.setKey, h, ih]

theorem lookupKey_eraseKey_self [DecidableEq κ] (s : Table κ ε) (k : κ) :
    Table.lookupKey (Table.eraseKey s k) k = none := by
  induction s with
  | nil => simp [Table.lookupKey, Table.eraseKey]
  | cons p tl ih =>
    obtain ⟨k0, e0⟩ := p
    by_cases h : k0 = k
    · simp [Table.eraseKey, h, ih]
    · simp [Table.lookupKey, Table.eraseKey, h, ih]

theorem lookupKey_eraseKey_ne [DecidableEq κ] (s : Table κ ε) (k k2 : κ)
    (h : k2 ≠ k) :
    Table.lookupKey (Table.eraseKey s k) k2 = Table.lookupKey s k2 := by
  induction s with
  | nil => simp [Table.eraseKey]
  | cons p tl ih =>
    obtain ⟨k0, e0⟩ := p
    by_cases h0 : k0 = k
    · have hne : k0 ≠ k2 := by
        rw [h0]
        exact fun hc => h hc.symm
      simp [Table.eraseKey, h0, Table.lookupKey, ih]
      rw [h0] at hne
      simp [hne]
    · simp [Table.eraseKey, h0, Table.lookupKey, ih]

theorem eraseKey_of_lookupKey_none [DecidableEq κ] (s : Table κ ε) (k : κ)
    (h : Table.lookupKey s k = none) : Table.eraseKey s k = s := by
  induction s with
  | nil => rfl
  | cons p tl ih =>
    obtain ⟨k0, e0⟩ := p
    by_cases h0 : k0 = k
    · simp [Table.lookupKey, h0] at h
    · simp [Table.lookupKey, h0] at h
      simp [Table.eraseKey, h0, ih h]

/-! ## C1 -/

/-- C1, counterexample: a pool-acquire failure at `GET /assignments` does
not surface as a request-level error response — the handler panics
(`pool.get().expect("db connection")` in `get_user_tasks`), refuting the
claim for the list endpoints. -/
theorem c1_counterexample : get_user_tasks false false [] = .panicked := by
  rfl

/-- C1, amended: for every keyed endpoint (keyed GET, POST, PUT, DELETE)
a pool-acquire failure surfaces as absence (a 404 response) and never a
panic; the two list endpoints, however, panic on pool-acquire failure. -/
theorem c1_pool_failure_amended
    (user_id task_id id : Int) (fault : Bool) (s : AssignStore)
    (st : StatusStore) (input : UserTaskInput) (sinput : TaskStatusInput) :
    get_user_task user_id task_id false fault s = none ∧
    (update_user_task user_id task_id false fault s input).1 = none ∧
    (create_user_task false fault s input).1 = none ∧
    (delete_user_task user_id task_id false fault s).1 = none ∧
    get_task_status id false fault st = none ∧
    (update_task_status id false fault st sinput).1 = none ∧
    (create_task_status false fault st sinput).1 = none ∧
    (delete_task_status id false fault st).1 = none ∧
    get_user_tasks false fault s = .panicked ∧
    get_task_statuses false fault st = .panicked := by
  simp [get_user_task, update_user_task, create_user_task, delete_user_task,
    get_task_status, update_task_status, create_task_status,
    delete_task_status, get_user_tasks, get_task_statuses]

/-! ## C2 -/

/-- C2, counterexample: `GET /tasks_statuses` does not return an empty
JSON sequence on every failure — when acquiring a connection from the
pool fails, `get_task_statuses` panics instead of answering at all. -/
theorem c2_counterexample : get_task_statuses false false ⟨[], 1⟩ = .panicked := by
  rfl

/-- C2, amended: once a connection is acquired, the two list endpoints
never surface an error to the caller: on a failed underlying read, and on
an empty table, they return the empty JSON sequence with a success
status (and always answer with a success status); a pool-acquire
failure, however, panics the handler. -/
theorem c2_list_endpoints_amended (fault : Bool) (s : AssignStore)
    (st : StatusStore) :
    (∃ l, get_user_tasks true fault s = .ok l) ∧
    (∃ l, get_task_statuses true fault st = .ok l) ∧
    get_user_tasks true true s = .ok [] ∧
    get_task_statuses true true st = .ok [] ∧
    get_user_tasks true fault [] = .ok [] ∧
    get_task_statuses true fault ⟨[], st.nextId⟩ = .ok [] := by
  cases fault <;>
    simp [get_user_tasks, get_task_statuses, UserTask.read_all,
      TaskStatus.read_all, Except.toOption]

/-! ## C10 -/

/-- C10: for every endpoint other than the two list endpoints, a
pool-acquire failure makes the handler return absence (rendered 404)
immediately, with no store operation attempted: the store is returned
unchanged. -/
theorem c10_pool_failure_keyed_no_store_op
    (user_id task_id id : Int) (fault : Bool) (s : AssignStore)
    (st : StatusStore) (input : UserTaskInput) (sinput : TaskStatusInput) :
    get_user_task user_id task_id false fault s = none ∧
    update_user_task user_id task_id false fault s input = (none, s) ∧
    create_user_task false fault s input = (none, s) ∧
    delete_user_task user_id task_id false fault s = (none, s) ∧
    get_task_status id false fault st = none ∧
    update_task_status id false fault st sinput = (none, st) ∧
    create_task_status false fault st sinput = (none, st) ∧
    delete_task_status id false fault st = (none, st) := by
  simp [get_user_task, update_user_task, create_user_task, delete_user_task,
    get_task_status, update_task_status, create_task_status,
    delete_task_status]

/-! ## C3 -/

/-- C3, counterexample: `DELETE` at an absent key does not answer
"no content found": with an empty store, `delete_user_task` answers with
the JSON count `0` under a success status (the modelled CRUD `delete`
succeeds with count 0 on an absent key, per §4.2). -/
theorem c3_counterexample :
    (delete_user_task 1 1 true false []).1 = some 0 ∧
    (delete_user_task 1 1 true false []).1 ≠ none := by
  decide

/-- C3, amended: `DELETE` at an already-deleted key does not crash; it
answers the removed-row count `0` as JSON with a success status (not
"no content found") and leaves the store unchanged, so repeating the
`DELETE` any number of times is safe and yields the same answer. -/
theorem c3_delete_absent_key_amended (user_id task_id id : Int)
    (s : AssignStore) (st : StatusStore)
    (h : Table.lookupKey s (user_id, task_id) = none)
    (h2 : Table.lookupKey st.rows id = none) :
    delete_user_task user_id task_id true false s = (some 0, s) ∧
    delete_task_status id true false st = (some 0, st) := by
  constructor
  · simp [delete_user_task, UserTask.delete, h,
      eraseKey_of_lookupKey_none s _ h]
  · simp [delete_task_status, TaskStatus.delete, h2,
      eraseKey_of_lookupKey_none st.rows _ h2]

/-- C3, witness: the amended theorem applied at empty stores. -/
theorem c3_delete_absent_key_witness :
    delete_user_task 1 1 true false [] = (some 0, []) ∧
    delete_task_status 1 true false ⟨[], 1⟩ = (some 0, ⟨[], 1⟩) :=
  c3_delete_absent_key_amended 1 1 1 [] ⟨[], 1⟩ rfl rfl

/-! ## C4 -/

/-- C4: `PUT /assignments/{user_id}/{task_id}` addresses the row keyed by
the path parameters; when that row exists, all three body fields —
including the body's `user_id` and `task_id` — are written to it
verbatim and the updated entity is returned; when it does not exist, the
answer is "no content found" and the store is unchanged. -/
theorem c4_put_assignment_semantics (user_id task_id : Int)
    (s : AssignStore) (input : UserTaskInput) :
    ((Table.lookupKey s (user_id, task_id)).isSome →
      update_user_task user_id task_id true false s input =
        (some ⟨input.user_id, input.task_id, input.task_status_id⟩,
          Table.setKey s (user_id, task_id)
            ⟨input.user_id, input.task_id, input.task_status_id⟩) ∧
      Table.lookupKey (update_user_task user_id task_id true false s input).2
          (user_id, task_id) =
        some ⟨input.user_id, input.task_id, input.task_status_id⟩) ∧
    (Table.lookupKey s (user_id, task_id) = none →
      update_user_task user_id task_id true false s input = (none, s)) := by
  constructor
  · intro h
    refine ⟨by simp [update_user_task, UserTask.update, h], ?_⟩
    simp [update_user_task, UserTask.update, h, lookupKey_setKey_self]
    obtain ⟨e0, he0⟩ := Option.isSome_iff_exists.mp h
    simp [he0]
  · intro h
    simp [update_user_task, UserTask.update, h]

/-- C4, witness: updating the present key `(1, 1)` with a body carrying
different `user_id`/`task_id` values writes the body verbatim. -/
theorem c4_put_assignment_witness :
    update_user_task 1 1 true false [((1, 1), ⟨1, 1, 5⟩)] ⟨2, 3, 7⟩ =
      (some ⟨2, 3, 7⟩,
        Table.setKey [((1, 1), (⟨1, 1, 5⟩ : UserTask))] (1, 1) ⟨2, 3, 7⟩) ∧
    Table.lookupKey
        (update_user_task 1 1 true false [((1, 1), ⟨1, 1, 5⟩)] ⟨2, 3, 7⟩).2
        (1, 1) =
      some ⟨2, 3, 7⟩ :=
  (c4_put_assignment_semantics 1 1 [((1, 1), ⟨1, 1, 5⟩)] ⟨2, 3, 7⟩).1
    (by decide)

/-! ## C5 -/

/-- C5: the keyed reads `GET /assignments/{user_id}/{task_id}` and
`GET /tasks_statuses/{id}` return the single row matching the key, and
return absence both when no such row exists and when the underlying
operation errors — the two cases produce the same observable answer. -/
theorem c5_keyed_read_semantics (user_id task_id id : Int)
    (s : AssignStore) (st : StatusStore) :
    get_user_task user_id task_id true true s = none ∧
    (Table.lookupKey s (user_id, task_id) = none →
      get_user_task user_id task_id true false s = none) ∧
    (∀ e, Table.lookupKey s (user_id, task_id) = some e →
      get_user_task user_id task_id true false s = some e) ∧
    get_task_status id true true st = none ∧
    (Table.lookupKey st.rows id = none →
      get_task_status id true false st = none) ∧
    (∀ e, Table.lookupKey st.rows id = some e →
      get_task_status id true false st = some e) := by
  refine ⟨?_, ?_, ?_, ?_, ?_, ?_⟩ <;>
    simp [get_user_task, get_task_status, UserTask.read, TaskStatus.read,
      Except.toOption]

/-- C5, witness: an errored read, a missing key, and a present key each
answer as the theorem states, on concrete one-row stores. -/
theorem c5_keyed_read_witness :
    get_user_task 1 1 true true [((1, 1), ⟨1, 1, 5⟩)] = none ∧
    get_user_task 2 2 true false [((1, 1), ⟨1, 1, 5⟩)] = none ∧
    get_user_task 1 1 true false [((1, 1), ⟨1, 1, 5⟩)] = some ⟨1, 1, 5⟩ ∧
    get_task_status 1 true false ⟨[(1, ⟨1, "open"⟩)], 2⟩ = some ⟨1, "open"⟩ :=
  have h1 := c5_keyed_read_semantics 1 1 1 [((1, 1), ⟨1, 1, 5⟩)]
    ⟨[(1, ⟨1, "open"⟩)], 2⟩
  have h2 := c5_keyed_read_semantics 2 2 1 [((1, 1), ⟨1, 1, 5⟩)]
    ⟨[(1, ⟨1, "open"⟩)], 2⟩
  ⟨h1.1, h2.2.1 (by decide), h1.2.2.1 ⟨1, 1, 5⟩ (by decide),
    h1.2.2.2.2.2 ⟨1, "open"⟩ (by rfl)⟩

/-! ## C6 -/

/-- C6: a `PUT` at a key absent from the store answers "no content
found" and leaves the store unchanged — in particular it creates no row,
so a subsequent `GET` at the same key (whatever its own pool or store
outcome) still answers absence. -/
theorem c6_put_absent_key (user_id task_id id : Int) (poolOk fault : Bool)
    (s : AssignStore) (st : StatusStore) (input : UserTaskInput)
    (sinput : TaskStatusInput)
    (h : Table.lookupKey s (user_id, task_id) = none)
    (h2 : Table.lookupKey st.rows id = none) :
    update_user_task user_id task_id poolOk fault s input = (none, s) ∧
    (∀ poolOk2 fault2, get_user_task user_id task_id poolOk2 fault2 s = none) ∧
    update_task_status id poolOk fault st sinput = (none, st) ∧
    (∀ poolOk2 fault2, get_task_status id poolOk2 fault2 st = none) := by
  refine ⟨?_, ?_, ?_, ?_⟩
  · cases poolOk <;> cases fault <;>
      simp [update_user_task, UserTask.update, h]
  · intro poolOk2 fault2
    cases poolOk2 <;> cases fault2 <;>
      simp [get_user_task, UserTask.read, Except.toOption, h]
  · cases poolOk <;> cases fault <;>
      simp [update_task_status, TaskStatus.update, h2]
  · intro poolOk2 fault2
    cases poolOk2 <;> cases fault2 <;>
      simp [get_task_status, TaskStatus.read, Except.toOption, h2]

/-- C6, witness: a `PUT` at the absent key `(2, 2)` (and status id `2`)
of concrete one-row stores changes nothing and the keys stay absent. -/
theorem c6_put_absent_key_witness :
    update_user_task 2 2 true false [((1, 1), ⟨1, 1, 5⟩)] ⟨2, 2, 7⟩ =
      (none, [((1, 1), ⟨1, 1, 5⟩)]) ∧
    get_user_task 2 2 true false [((1, 1), ⟨1, 1, 5⟩)] = none ∧
    update_task_status 2 true false ⟨[(1, ⟨1, "open"⟩)], 2⟩ ⟨"done"⟩ =
      (none, ⟨[(1, ⟨1, "open"⟩)], 2⟩) ∧
    get_task_status 2 true false ⟨[(1, ⟨1, "open"⟩)], 2⟩ = none :=
  have h := c6_put_absent_key 2 2 2 true false [((1, 1), ⟨1, 1, 5⟩)]
    ⟨[(1, ⟨1, "open"⟩)], 2⟩ ⟨2, 2, 7⟩ ⟨"done"⟩ (by decide) (by rfl)
  ⟨h.1, h.2.1 true false, h.2.2.1, h.2.2.2 true false⟩

/-! ## C7 -/

/-- C7: for every key, the CRUD `delete` removes the row identified by
that key (afterwards the key reads as absent while every other key is
untouched) and returns the count of rows removed, which is 0 or 1 — 1
exactly when the key was present; it fails only on store-level errors,
never merely because the key was absent. -/
theorem c7_delete_contract (s : AssignStore) (st : StatusStore)
    (k : Int × Int) (kid : Int) :
    UserTask.delete true s k = .error .storeError ∧
    UserTask.delete false s k =
      .ok ((if (Table.lookupKey s k).isSome then 1 else 0),
        Table.eraseKey s k) ∧
    ((if (Table.lookupKey s k).isSome then 1 else 0) = 0 ∨
      (if (Table.lookupKey s k).isSome then 1 else 0) = 1) ∧
    Table.lookupKey (Table.eraseKey s k) k = none ∧
    (∀ k2, k2 ≠ k →
      Table.lookupKey (Table.eraseKey s k) k2 = Table.lookupKey s k2) ∧
    TaskStatus.delete true st kid = .error .storeError ∧
    TaskStatus.delete false st kid =
      .ok ((if (Table.lookupKey st.rows kid).isSome then 1 else 0),
        ⟨Table.eraseKey st.rows kid, st.nextId⟩) ∧
    Table.lookupKey (Table.eraseKey st.rows kid) kid = none ∧
    (∀ k2, k2 ≠ kid →
      Table.lookupKey (Table.eraseKey st.rows kid) k2 =
        Table.lookupKey st.rows k2) := by
  refine ⟨rfl, rfl, ?_, lookupKey_eraseKey_self s k,
    fun k2 h => lookupKey_eraseKey_ne s k k2 h, rfl, rfl,
    lookupKey_eraseKey_self st.rows kid,
    fun k2 h => lookupKey_eraseKey_ne st.rows kid k2 h⟩
  by_cases h : (Table.lookupKey s k).isSome <;> simp [h]

/-- C7, witness: deleting the present key `(1, 1)` of a concrete one-row
store removes the row with count 1 and leaves the other key `(2, 2)` as
it was. -/
theorem c7_delete_contract_witness :
    UserTask.delete false [((1, 1), ⟨1, 1, 5⟩)] (1, 1) = .ok (1, []) ∧
    Table.lookupKey
        (Table.eraseKey [((1, 1), (⟨1, 1, 5⟩ : UserTask))] (1, 1)) (2, 2) =
      Table.lookupKey [((1, 1), (⟨1, 1, 5⟩ : UserTask))] (2, 2) :=
  have h := c7_delete_contract [((1, 1), ⟨1, 1, 5⟩)] ⟨[], 1⟩ (1, 1) 1
  ⟨h.2.1.trans (by rfl), h.2.2.2.2.1 (2, 2) (by decide)⟩

/-! ## C8 -/

/-- C8, counterexample: with the row `(1, 1) ↦ ⟨1, 1, 5⟩` already stored,
`POST /assignments` with the payload `⟨1, 1, 7⟩` fails on the composite
primary key (answering absence), and the subsequent keyed `GET` returns
the pre-existing row `⟨1, 1, 5⟩`, which differs from the payload — the
round trip does not return an entity equal to P for every valid P. -/
theorem c8_counterexample :
    (create_user_task true false [((1, 1), ⟨1, 1, 5⟩)] ⟨1, 1, 7⟩).1 = none ∧
    get_user_task 1 1 true false
        (create_user_task true false [((1, 1), ⟨1, 1, 5⟩)] ⟨1, 1, 7⟩).2 =
      some ⟨1, 1, 5⟩ ∧
    (⟨1, 1, 5⟩ : UserTask) ≠ ⟨1, 1, 7⟩ := by
  decide

/-- C8, amended: for every assignment payload P whose composite key
`(P.user_id, P.task_id)` is not already present in the store,
`POST /assignments` with P succeeds and a subsequent
`GET /assignments/{P.user_id}/{P.task_id}` returns an entity equal
to P. -/
theorem c8_post_then_get_amended (s : AssignStore) (input : UserTaskInput)
    (h : Table.lookupKey s (input.user_id, input.task_id) = none) :
    (create_user_task true false s input).1 =
      some ⟨input.user_id, input.task_id, input.task_status_id⟩ ∧
    get_user_task input.user_id input.task_id true false
        (create_user_task true false s input).2 =
      some ⟨input.user_id, input.task_id, input.task_status_id⟩ := by
  simp [create_user_task, UserTask.create, h, get_user_task, UserTask.read,
    Except.toOption, Table.lookupKey]

/-- C8, witness: the amended round trip at the empty store with the
payload `⟨1, 1, 1⟩`. -/
theorem c8_post_then_get_witness :
    (create_user_task true false [] ⟨1, 1, 1⟩).1 = some ⟨1, 1, 1⟩ ∧
    get_user_task 1 1 true false
        (create_user_task true false [] ⟨1, 1, 1⟩).2 =
      some ⟨1, 1, 1⟩ :=
  c8_post_then_get_amended [] ⟨1, 1, 1⟩ rfl

/-! ## C9 -/

/-- C9: for every key present in the store, `DELETE` at that key (which
answers the count 1) followed by `GET` at the same key answers "no
content found" — deletion makes the key unreadable, whatever the later
request's pool or store outcome. -/
theorem c9_delete_then_get (user_id task_id id : Int) (s : AssignStore)
    (st : StatusStore) (e : UserTask) (se : TaskStatus)
    (h : Table.lookupKey s (user_id, task_id) = some e)
    (h2 : Table.lookupKey st.rows id = some se) :
    (delete_user_task user_id task_id true false s).1 = some 1 ∧
    (∀ poolOk fault, get_user_task user_id task_id poolOk fault
      (delete_user_task user_id task_id true false s).2 = none) ∧
    (delete_task_status id true false st).1 = some 1 ∧
    (∀ poolOk fault, get_task_status id poolOk fault
      (delete_task_status id true false st).2 = none) := by
  refine ⟨by simp [delete_user_task, UserTask.delete, h], ?_,
    by simp [delete_task_status, TaskStatus.delete, h2], ?_⟩
  · intro poolOk fault
    cases poolOk <;> cases fault <;>
      simp [delete_user_task, UserTask.delete, h, get_user_task,
        UserTask.read, Except.toOption, lookupKey_eraseKey_self]
  · intro poolOk fault
    cases poolOk <;> cases fault <;>
      simp [delete_task_status, TaskStatus.delete, h2, get_task_status,
        TaskStatus.read, Except.toOption, lookupKey_eraseKey_self]

/-- C9, witness: deleting the present key `(1, 1)` (and status id `1`)
of concrete one-row stores, then reading it back, answers absence. -/
theorem c9_delete_then_get_witness :
    (delete_user_task 1 1 true false [((1, 1), ⟨1, 1, 5⟩)]).1 = some 1 ∧
    get_user_task 1 1 true false
      (delete_user_task 1 1 true false [((1, 1), ⟨1, 1, 5⟩)]).2 = none ∧
    (delete_task_status 1 true false ⟨[(1, ⟨1, "open"⟩)], 2⟩).1 = some 1 ∧
    get_task_status 1 true false
      (delete_task_status 1 true false ⟨[(1, ⟨1, "open"⟩)], 2⟩).2 = none :=
  have h := c9_delete_then_get 1 1 1 [((1, 1), ⟨1, 1, 5⟩)]
    ⟨[(1, ⟨1, "open"⟩)], 2⟩ ⟨1, 1, 5⟩ ⟨1, "open"⟩ (by decide) (by rfl)
  ⟨h.1, h.2.1 true false, h.2.2.1, h.2.2.2 true false⟩
